import Mathlib

/-!
# Verification of the multi-round tool-orchestration loop

Shallow embedding of `backend/ai_generator.py` (class `AIGenerator`) from the
RAG chatbot repository, together with spec-modelled definitions for the
retrieval tool and tool registry (`backend/search_tools.py`, whose source is
absent from the tree; only its tests and the spec describe it).

The generative-model collaborator is modelled as a function from the call
index to a call outcome (a response or a raised exception), mirroring how the
repository's tests drive the loop with a scripted sequence of mock responses.
Python truthiness of `Optional[str]` / `Optional[List]` values is embedded
explicitly, since the source branches on it (`if round_response.error:`,
`if state.tools:`, ...).
-/

/-- A single quote character, used in tool/filter message strings. -/
def squo : String := String.mk [Char.ofNat 39]

/-- Python truthiness of an `Optional[str]`: `None` and `""` are falsy. -/
def optStrTruthy : Option String → Bool
  | none => false
  | some s => if s = "" then false else true

/-- Python truthiness of an `Optional[List]`: `None` and `[]` are falsy. -/
def optListTruthy {α : Type} : Option (List α) → Bool
  | none => false
  | some [] => false
  | some (_ :: _) => true

/-- One block of a model response's `content` list: a text block or a
tool-use block `{id, name, input}` (input values are opaque strings to the
loop, which passes them through unchanged). -/
inductive ContentBlock where
  | text (s : String)
  | toolUse (id : String) (name : String) (input : List (String × String))
deriving DecidableEq, Repr

/-- A model response: `stop_reason` plus the `content` block list
(lines 184-201 of `ai_generator.py` read exactly these two fields). -/
structure ModelResponse where
  stop_reason : String
  content : List ContentBlock
deriving DecidableEq, Repr

/-- Outcome of one `client.messages.create` call: a response, or a raised
exception carrying `str(e)`. -/
inductive CallOutcome where
  | ok (resp : ModelResponse)
  | raise (msg : String)
deriving DecidableEq, Repr

/-- The tool-result dict built at lines 144-155: `{"type": "tool_result",
"tool_use_id": ..., "content": ...}`; the constant `"type"` entry is kept
as the `rtype` field. -/
structure ToolResult where
  rtype : String := "tool_result"
  tool_use_id : String
  content : String
deriving DecidableEq, Repr

/-- A tool manager's `execute_tool`: may return a result string or raise
(`Except.error` carries `str(e)` of the raised exception). -/
def ToolExec : Type := String → List (String × String) → Except String String

/-- Content of a conversation message: the initial user message holds the
query string, assistant messages hold response blocks, and tool-result
messages hold a list of tool results (lines 88, 245-255). -/
inductive MessageContent where
  | ofString (s : String)
  | ofBlocks (blocks : List ContentBlock)
  | ofResults (results : List ToolResult)
deriving DecidableEq, Repr

/-- One entry of `state.messages`. -/
structure Message where
  role : String
  content : MessageContent
deriving DecidableEq, Repr

/-- Record of one `client.messages.create` invocation: the messages passed,
the system string, and whether the `tools` / `tool_choice` parameters were
included (lines 172-181 and 270-274). -/
structure ApiCall where
  messages : List Message
  system : String
  hasTools : Bool
  hasToolChoice : Bool
deriving DecidableEq, Repr

/-- `ConversationState` (lines 5-12): tool schemas are opaque to the loop,
which only tests their truthiness, so they are carried as bare strings. -/
structure ConvState where
  messages : List Message
  round_count : Nat := 0
  max_rounds : Nat := 2
  tools : Option (List String) := none
  tool_manager : Option ToolExec := none

/-- `RoundResponse` (lines 14-21). -/
structure RoundResponse where
  claude_response : Option ModelResponse
  has_tool_calls : Bool
  tool_results : List ToolResult
  final_text : Option String := none
  error : Option String := none

/-- Result of a whole `generate_response` invocation, instrumented with the
sequence of model calls made and the tool results produced per tool round. -/
structure RunResult where
  result : String
  calls : List ApiCall
  toolRounds : List (List ToolResult)

/-- `_handle_tool_execution` (lines 124-157): one result per `tool_use`
block, in content order; a raised tool exception is caught per call and
becomes a `"Tool execution failed: <message>"` result. -/
def handleToolExecution (tm : ToolExec) : List ContentBlock → List ToolResult
  | [] => []
  | ContentBlock.text _ :: rest => handleToolExecution tm rest
  | ContentBlock.toolUse id name input :: rest =>
      let c : String :=
        match tm name input with
        | Except.ok r => r
        | Except.error e => "Tool execution failed: " ++ e
      { tool_use_id := id, content := c } :: handleToolExecution tm rest

/-- Exception message for `claude_response.content[0]` on an empty list. -/
def indexErrMsg : String := "list index out of range"

/-- Exception message for reading `.text` off a non-text first block. -/
def attrErrMsg : String := "ToolUseBlock object has no attribute text"

/-- `claude_response.content[0].text` (lines 200 and 277): raises on an
empty content list or when the first block is not a text block. -/
def firstText : List ContentBlock → Except String String
  | [] => Except.error indexErrMsg
  | ContentBlock.text s :: _ => Except.ok s
  | ContentBlock.toolUse _ _ _ :: _ => Except.error attrErrMsg

/-- The no-tool-calls arm of `_execute_single_round` (lines 194-201): the
`.text` read happens inside the round's `try`, so its exception lands in the
`except` arm (lines 203-209). -/
def naturalRound (resp : ModelResponse) : RoundResponse :=
  match firstText resp.content with
  | Except.ok t =>
      { claude_response := some resp, has_tool_calls := false,
        tool_results := [], final_text := some t, error := none }
  | Except.error m =>
      { claude_response := none, has_tool_calls := false,
        tool_results := [], final_text := none, error := some m }

/-- `_execute_single_round` (lines 159-209), also returning the record of
the API call it made.  The `tools`/`tool_choice` parameters are attached
together iff `state.tools` is truthy (lines 179-181); the tool arm requires
`stop_reason == "tool_use" and state.tool_manager` (line 187). -/
def executeSingleRound (model : Nat → CallOutcome) (sys : String)
    (state : ConvState) (callIdx : Nat) : RoundResponse × ApiCall :=
  let call : ApiCall :=
    { messages := state.messages, system := sys,
      hasTools := optListTruthy state.tools,
      hasToolChoice := optListTruthy state.tools }
  match model callIdx with
  | CallOutcome.raise m =>
      ({ claude_response := none, has_tool_calls := false,
         tool_results := [], final_text := none, error := some m }, call)
  | CallOutcome.ok resp =>
      match state.tool_manager with
      | some tm =>
          if resp.stop_reason = "tool_use" then
            ({ claude_response := some resp, has_tool_calls := true,
               tool_results := handleToolExecution tm resp.content,
               final_text := none, error := none }, call)
          else (naturalRound resp, call)
      | none => (naturalRound resp, call)

/-- `_should_terminate` (lines 211-234): terminate on truthy `error` or on
absent tool calls; the round counters are ignored by the body. -/
def shouldTerminate (r : RoundResponse) : Bool :=
  optStrTruthy r.error || !r.has_tool_calls

/-- The termination dispatch of `generate_response` (lines 110-115): truthy
`final_text`, else truthy `error` as `"Error: <message>"`, else the literal
`"No response generated"`. -/
def resolveTermination (r : RoundResponse) : String :=
  if optStrTruthy r.final_text then r.final_text.getD ""
  else if optStrTruthy r.error then "Error: " ++ (r.error.getD "")
  else "No response generated"

/-- `_prepare_next_round` (lines 236-255): append the assistant tool-call
message, then one user message bundling the round's tool results (the latter
only when the result list is non-empty, line 251). -/
def prepareNextRound (state : ConvState) (r : RoundResponse) : ConvState :=
  let content : List ContentBlock :=
    match r.claude_response with
    | some resp => resp.content
    | none => []
  let msgs := state.messages ++ [{ role := "assistant", content := MessageContent.ofBlocks content }]
  let msgs := if r.tool_results.isEmpty then msgs
    else msgs ++ [{ role := "user", content := MessageContent.ofResults r.tool_results }]
  { state with messages := msgs }

/-- `_get_final_response` (lines 257-280): one more model call without
`tools`/`tool_choice`; any exception (from the call or the `.text` read)
becomes `"Error generating final response: <message>"`. -/
def getFinalResponse (model : Nat → CallOutcome) (sys : String)
    (state : ConvState) (callIdx : Nat) (callsAcc : List ApiCall)
    (traceAcc : List (List ToolResult)) : RunResult :=
  let call : ApiCall :=
    { messages := state.messages, system := sys,
      hasTools := false, hasToolChoice := false }
  let res : String :=
    match model callIdx with
    | CallOutcome.raise m => "Error generating final response: " ++ m
    | CallOutcome.ok resp =>
        match firstText resp.content with
        | Except.ok t => t
        | Except.error m => "Error generating final response: " ++ m
  { result := res, calls := callsAcc ++ [call], toolRounds := traceAcc }

/-- The `for round_num in range(1, max_rounds + 1)` loop of
`generate_response` (lines 101-122), recursing on the rounds left; when the
budget is exhausted the forced final call is made. -/
def runLoop (model : Nat → CallOutcome) (sys : String) :
    ConvState → Nat → Nat → List ApiCall → List (List ToolResult) → RunResult
  | state, callIdx, 0, callsAcc, traceAcc =>
      getFinalResponse model sys state callIdx callsAcc traceAcc
  | state, callIdx, n + 1, callsAcc, traceAcc =>
      let rc := executeSingleRound model sys state callIdx
      let calls2 := callsAcc ++ [rc.2]
      let trace2 := traceAcc ++ (if rc.1.has_tool_calls then [rc.1.tool_results] else [])
      if shouldTerminate rc.1 then
        { result := resolveTermination rc.1, calls := calls2, toolRounds := trace2 }
      else
        runLoop model sys (prepareNextRound state rc.1) (callIdx + 1) n calls2 trace2

/-- The static system prompt (lines 27-56); its text is opaque to the
control flow, so it is abbreviated here. -/
def SYSTEM_PROMPT : String := "You are an AI assistant specialized in course materials."

/-- The system content built at lines 94-99: the static prompt, suffixed
with the formatted history only when the history is truthy. -/
def systemContent (conversation_history : Option String) : String :=
  if optStrTruthy conversation_history then
    SYSTEM_PROMPT ++ "\n\nPrevious conversation:\n" ++ (conversation_history.getD "")
  else SYSTEM_PROMPT

/-- The `ConversationState` seeded at lines 87-92: one user turn holding the
query, `max_rounds = 2`. -/
def initialState (query : String) (tools : Option (List String))
    (tool_manager : Option ToolExec) : ConvState :=
  { messages := [{ role := "user", content := MessageContent.ofString query }],
    max_rounds := 2, tools := tools, tool_manager := tool_manager }

/-- `generate_response` (lines 69-122): seed the conversation with the user
query, build the system content, run at most `max_rounds = 2` rounds, then
the forced final call. -/
def generate_response (model : Nat → CallOutcome) (query : String)
    (conversation_history : Option String := none)
    (tools : Option (List String) := none)
    (tool_manager : Option ToolExec := none) : RunResult :=
  runLoop model (systemContent conversation_history)
    (initialState query tools tool_manager) 0
    (initialState query tools tool_manager).max_rounds [] []

/-! ## Observers and helper lemmas -/

/-- A tool-call request as carried by a `tool_use` content block
(spec §3, "Tool-Call Request"). -/
structure ToolUseReq where
  id : String
  name : String
  input : List (String × String)
deriving DecidableEq, Repr

/-- The tool-call requests of a content list, in order. -/
def toolUseReqs : List ContentBlock → List ToolUseReq
  | [] => []
  | ContentBlock.text _ :: rest => toolUseReqs rest
  | ContentBlock.toolUse id name input :: rest =>
      { id := id, name := name, input := input } :: toolUseReqs rest

theorem handleToolExecution_ids (tm : ToolExec) :
    ∀ content : List ContentBlock,
      (handleToolExecution tm content).map ToolResult.tool_use_id
        = (toolUseReqs content).map ToolUseReq.id := by
  intro content
  induction content with
  | nil => rfl
  | cons b rest ih => cases b <;> simp [handleToolExecution, toolUseReqs, ih]

theorem handleToolExecution_length (tm : ToolExec) :
    ∀ content : List ContentBlock,
      (handleToolExecution tm content).length = (toolUseReqs content).length := by
  intro content
  induction content with
  | nil => rfl
  | cons b rest ih => cases b <;> simp [handleToolExecution, toolUseReqs, ih]

theorem handleToolExecution_append (tm : ToolExec) (a b : List ContentBlock) :
    handleToolExecution tm (a ++ b)
      = handleToolExecution tm a ++ handleToolExecution tm b := by
  induction a with
  | nil => rfl
  | cons x rest ih => cases x <;> simp [handleToolExecution, ih]

theorem executeSingleRound_call (model : Nat → CallOutcome) (sys : String)
    (state : ConvState) (callIdx : Nat) :
    (executeSingleRound model sys state callIdx).2 =
      { messages := state.messages, system := sys,
        hasTools := optListTruthy state.tools,
        hasToolChoice := optListTruthy state.tools } := by
  unfold executeSingleRound
  cases model callIdx with
  | raise m => rfl
  | ok resp =>
      cases state.tool_manager with
      | none => rfl
      | some tm =>
          simp only
          split <;> rfl

theorem runLoop_calls_extends (model : Nat → CallOutcome) (sys : String) :
    ∀ (n : Nat) (state : ConvState) (callIdx : Nat)
      (callsAcc : List ApiCall) (traceAcc : List (List ToolResult)),
      ∃ l, (runLoop model sys state callIdx n callsAcc traceAcc).calls = callsAcc ++ l := by
  intro n
  induction n with
  | zero =>
      intro state callIdx callsAcc traceAcc
      exact ⟨_, rfl⟩
  | succ n ih =>
      intro state callIdx callsAcc traceAcc
      simp only [runLoop]
      split
      · exact ⟨_, rfl⟩
      · obtain ⟨l, hl⟩ := ih (prepareNextRound state (executeSingleRound model sys state callIdx).1)
          (callIdx + 1) (callsAcc ++ [(executeSingleRound model sys state callIdx).2]) _
        exact ⟨_, by rw [hl, List.append_assoc]⟩

theorem runLoop_calls_le (model : Nat → CallOutcome) (sys : String) :
    ∀ (n : Nat) (state : ConvState) (callIdx : Nat)
      (callsAcc : List ApiCall) (traceAcc : List (List ToolResult)),
      (runLoop model sys state callIdx n callsAcc traceAcc).calls.length
        ≤ callsAcc.length + n + 1 := by
  intro n
  induction n with
  | zero =>
      intro state callIdx callsAcc traceAcc
      simp [runLoop, getFinalResponse]
  | succ n ih =>
      intro state callIdx callsAcc traceAcc
      simp only [runLoop]
      split
      · simp
      · calc (runLoop model sys _ (callIdx + 1) n
            (callsAcc ++ [(executeSingleRound model sys state callIdx).2]) _).calls.length
            ≤ (callsAcc ++ [(executeSingleRound model sys state callIdx).2]).length + n + 1 := ih _ _ _ _
          _ ≤ callsAcc.length + (n + 1) + 1 := by simp; omega

theorem runLoop_calls_ge (model : Nat → CallOutcome) (sys : String) :
    ∀ (n : Nat) (state : ConvState) (callIdx : Nat)
      (callsAcc : List ApiCall) (traceAcc : List (List ToolResult)),
      callsAcc.length + 1 ≤ (runLoop model sys state callIdx n callsAcc traceAcc).calls.length := by
  intro n
  induction n with
  | zero =>
      intro state callIdx callsAcc traceAcc
      simp [runLoop, getFinalResponse]
  | succ n ih =>
      intro state callIdx callsAcc traceAcc
      simp only [runLoop]
      split
      · simp
      · calc callsAcc.length + 1
            ≤ (callsAcc ++ [(executeSingleRound model sys state callIdx).2]).length + 1 := by simp
          _ ≤ _ := ih _ _ _ _

theorem generate_response_calls_le (model : Nat → CallOutcome) (q : String)
    (hist : Option String) (ts : Option (List String)) (tm : Option ToolExec) :
    (generate_response model q hist ts tm).calls.length ≤ 3 := by
  unfold generate_response
  exact runLoop_calls_le _ _ _ _ _ _ _

/-! ## Fixtures for witnesses and counterexamples -/

/-- Fixture: a model response requesting one `search_course_content` call. -/
def exToolResp : ModelResponse :=
  { stop_reason := "tool_use",
    content := [ContentBlock.toolUse "tool_123" "search_course_content"
      [("query", "machine learning")]] }

/-- Fixture: a plain-text final model response. -/
def exEndResp : ModelResponse :=
  { stop_reason := "end_turn", content := [ContentBlock.text "final answer"] }

/-- Fixture: a scripted model that always requests tool use. -/
def exToolScript : Nat → CallOutcome := fun _ => CallOutcome.ok exToolResp

/-- Fixture: a tool executor that always succeeds. -/
def exOkTm : ToolExec := fun _ _ => Except.ok "search results"

/-! ## Claims -/

/-- C1: when each of the first `max_rounds = 2` model responses requests tool
use (with tool schemas and a tool manager supplied), the loop makes exactly
two tool-bearing model calls (tool schemas and the automatic tool-choice
directive attached) followed by exactly one forced final call without tool
schemas and without a tool-choice directive; moreover, any invocation of
`generate_response` makes at most `max_rounds + 1 = 3` model calls. -/
theorem c1_round_bound
    (model : Nat → CallOutcome) (q : String) (hist : Option String)
    (ts : List String) (hts : ts ≠ []) (tm : ToolExec)
    (r0 r1 : ModelResponse)
    (h0 : model 0 = CallOutcome.ok r0) (hs0 : r0.stop_reason = "tool_use")
    (h1 : model 1 = CallOutcome.ok r1) (hs1 : r1.stop_reason = "tool_use") :
    ((generate_response model q hist (some ts) (some tm)).calls.map
        (fun c => (c.hasTools, c.hasToolChoice))
      = [(true, true), (true, true), (false, false)])
    ∧ ∀ (model' : Nat → CallOutcome) (q' : String) (hist' : Option String)
        (ts' : Option (List String)) (tm' : Option ToolExec),
        (generate_response model' q' hist' ts' tm').calls.length ≤ 3 := by
  constructor
  · cases ts with
    | nil => exact absurd rfl hts
    | cons a ts' =>
        simp [generate_response, initialState, runLoop, executeSingleRound, h0, h1, hs0, hs1,
          shouldTerminate, optStrTruthy, optListTruthy, getFinalResponse,
          prepareNextRound, resolveTermination]
  · intro model' q' hist' ts' tm'
    exact generate_response_calls_le model' q' hist' ts' tm'

/-- Witness for C1 at a concrete always-tool-requesting script. -/
theorem c1_round_bound_witness :
    ((generate_response exToolScript "q" none (some ["schema"]) (some exOkTm)).calls.map
        (fun c => (c.hasTools, c.hasToolChoice))
      = [(true, true), (true, true), (false, false)])
    ∧ (generate_response exToolScript "q" none (some ["schema"]) (some exOkTm)).calls.length ≤ 3 := by
  have h := c1_round_bound exToolScript "q" none ["schema"] (by decide) exOkTm
    exToolResp exToolResp rfl rfl rfl rfl
  exact ⟨h.1, h.2 exToolScript "q" none (some ["schema"]) (some exOkTm)⟩

theorem runLoop_calls_msgs_head (model : Nat → CallOutcome) (sys : String) :
    ∀ (n : Nat) (state : ConvState) (callIdx : Nat)
      (callsAcc : List ApiCall) (traceAcc : List (List ToolResult)),
      ∃ l, ((runLoop model sys state callIdx n callsAcc traceAcc).calls).map ApiCall.messages
        = callsAcc.map ApiCall.messages ++ state.messages :: l := by
  intro n
  induction n with
  | zero =>
      intro state callIdx callsAcc traceAcc
      exact ⟨[], by simp [runLoop, getFinalResponse]⟩
  | succ n ih =>
      intro state callIdx callsAcc traceAcc
      simp only [runLoop]
      split
      · exact ⟨[], by simp [executeSingleRound_call]⟩
      · obtain ⟨l, hl⟩ := ih (prepareNextRound state (executeSingleRound model sys state callIdx).1)
          (callIdx + 1) (callsAcc ++ [(executeSingleRound model sys state callIdx).2]) _
        refine ⟨(prepareNextRound state (executeSingleRound model sys state callIdx).1).messages :: l, ?_⟩
        rw [hl]
        simp [executeSingleRound_call]

/-- One loop step on a tool-requesting response (tool manager present):
no termination, the assistant message and the bundled tool-result message are
appended, the call record and the round's tool results are accumulated. -/
theorem runLoop_step_tool (model : Nat → CallOutcome) (sys : String)
    (state : ConvState) (callIdx n : Nat)
    (callsAcc : List ApiCall) (traceAcc : List (List ToolResult))
    (tm : ToolExec) (r : ModelResponse)
    (h : model callIdx = CallOutcome.ok r) (hs : r.stop_reason = "tool_use")
    (htm : state.tool_manager = some tm)
    (hk : (handleToolExecution tm r.content).isEmpty = false) :
    runLoop model sys state callIdx (n + 1) callsAcc traceAcc
      = runLoop model sys
          { state with messages := state.messages
              ++ [{ role := "assistant", content := MessageContent.ofBlocks r.content },
                  { role := "user", content := MessageContent.ofResults (handleToolExecution tm r.content) }] }
          (callIdx + 1) n
          (callsAcc ++ [{ messages := state.messages, system := sys,
                          hasTools := optListTruthy state.tools,
                          hasToolChoice := optListTruthy state.tools }])
          (traceAcc ++ [handleToolExecution tm r.content]) := by
  simp [runLoop, executeSingleRound, h, htm, hs, shouldTerminate, optStrTruthy,
    prepareNextRound, hk]

/-- C2 (amended): a model-call exception never propagates past
`generate_response`.  On a loop round with a non-empty exception message the
returned string is exactly `"Error: <message>"`; on the forced final call it
is `"Error generating final response: <message>"` (not of the
`"Error: <message>"` form); in both cases tool executions already performed
in earlier rounds remain recorded. -/
theorem c2_error_strings
    (model : Nat → CallOutcome) (q : String) (hist : Option String)
    (ts : Option (List String)) (tm : ToolExec) (m : String) (hm : m ≠ "") :
    (model 0 = CallOutcome.raise m →
      (generate_response model q hist ts (some tm)).result = "Error: " ++ m)
    ∧ (∀ r0, model 0 = CallOutcome.ok r0 → r0.stop_reason = "tool_use" →
        model 1 = CallOutcome.raise m →
        (generate_response model q hist ts (some tm)).result = "Error: " ++ m
        ∧ (generate_response model q hist ts (some tm)).toolRounds
            = [handleToolExecution tm r0.content])
    ∧ (∀ r0 r1, model 0 = CallOutcome.ok r0 → r0.stop_reason = "tool_use" →
        model 1 = CallOutcome.ok r1 → r1.stop_reason = "tool_use" →
        model 2 = CallOutcome.raise m →
        (generate_response model q hist ts (some tm)).result
            = "Error generating final response: " ++ m
        ∧ (generate_response model q hist ts (some tm)).toolRounds
            = [handleToolExecution tm r0.content, handleToolExecution tm r1.content]) := by
  refine ⟨?_, ?_, ?_⟩
  · intro h0
    simp [generate_response, initialState, runLoop, executeSingleRound, h0, shouldTerminate,
      optStrTruthy, resolveTermination, hm]
  · intro r0 h0 hs0 h1
    constructor <;>
      simp [generate_response, initialState, runLoop, executeSingleRound, h0, hs0, h1,
        shouldTerminate, optStrTruthy, resolveTermination, prepareNextRound, hm]
  · intro r0 r1 h0 hs0 h1 hs1 h2
    constructor <;>
      simp [generate_response, initialState, runLoop, executeSingleRound, h0, hs0, h1, hs1, h2,
        shouldTerminate, optStrTruthy, resolveTermination, prepareNextRound,
        getFinalResponse, hm]

/-- Fixture: a script that requests a tool once, then raises on every later
model call. -/
def c2wModel : Nat → CallOutcome
  | 0 => CallOutcome.ok exToolResp
  | _ => CallOutcome.raise "API rate limit exceeded"

/-- Witness for C2 (amended) on a round-2 model failure after one successful
tool round. -/
theorem c2_error_strings_witness :
    (generate_response c2wModel "q" none none (some exOkTm)).result
        = "Error: API rate limit exceeded"
    ∧ (generate_response c2wModel "q" none none (some exOkTm)).toolRounds
        = [[{ rtype := "tool_result", tool_use_id := "tool_123",
              content := "search results" }]] := by
  have h := (c2_error_strings c2wModel "q" none none exOkTm "API rate limit exceeded"
    (by decide)).2.1 exToolResp rfl rfl rfl
  exact ⟨h.1, h.2.trans (by decide)⟩

/-- C2 counterexample: when the forced final call raises `"boom"`, the
returned string is `"Error generating final response: boom"`, which is not
of the form `"Error: <message>"` stated by the claim. -/
theorem c2_counterexample :
    ((generate_response
        (fun i => match i with
          | 0 => CallOutcome.ok exToolResp
          | 1 => CallOutcome.ok exToolResp
          | _ => CallOutcome.raise "boom")
        "q" none (some ["schema"]) (some exOkTm)).result
      = "Error generating final response: boom")
    ∧ ((generate_response
          (fun i => match i with
            | 0 => CallOutcome.ok exToolResp
            | 1 => CallOutcome.ok exToolResp
            | _ => CallOutcome.raise "boom")
          "q" none (some ["schema"]) (some exOkTm)).result.data.take 7
      ≠ "Error: ".data) := by
  exact ⟨by decide, by decide⟩

/-- C3 (amended): if the first model response does not request tool use and
its first content block is a text block with text `t`, then exactly one
model call is made, no tool is executed, and the returned string is `t`
provided `t` is non-empty (an empty `t` yields `"No response generated"`
instead, see the counterexample). -/
theorem c3_natural_termination
    (model : Nat → CallOutcome) (q : String) (hist : Option String)
    (ts : Option (List String)) (tm : Option ToolExec)
    (r0 : ModelResponse) (t : String) (rest : List ContentBlock)
    (h0 : model 0 = CallOutcome.ok r0) (hs : r0.stop_reason ≠ "tool_use")
    (hc : r0.content = ContentBlock.text t :: rest) :
    (generate_response model q hist ts tm).calls.length = 1
    ∧ (generate_response model q hist ts tm).toolRounds = []
    ∧ (t ≠ "" → (generate_response model q hist ts tm).result = t) := by
  cases tm with
  | none =>
      refine ⟨?_, ?_, fun ht => ?_⟩ <;>
        simp [generate_response, initialState, runLoop, executeSingleRound, h0, hc, naturalRound,
          firstText, shouldTerminate, optStrTruthy, resolveTermination,
          getFinalResponse, *]
  | some tmf =>
      refine ⟨?_, ?_, fun ht => ?_⟩ <;>
        simp [generate_response, initialState, runLoop, executeSingleRound, h0, hc, hs, naturalRound,
          firstText, shouldTerminate, optStrTruthy, resolveTermination,
          getFinalResponse, *]

/-- Witness for C3 (amended) on an end-turn first response with text
`"final answer"`. -/
theorem c3_natural_termination_witness :
    (generate_response (fun _ => CallOutcome.ok exEndResp) "What is 2+2?" none none none).calls.length = 1
    ∧ (generate_response (fun _ => CallOutcome.ok exEndResp) "What is 2+2?" none none none).toolRounds = []
    ∧ (generate_response (fun _ => CallOutcome.ok exEndResp) "What is 2+2?" none none none).result
        = "final answer" := by
  have h := c3_natural_termination (fun _ => CallOutcome.ok exEndResp) "What is 2+2?"
    none none none exEndResp "final answer" [] rfl (by decide) rfl
  exact ⟨h.1, h.2.1, h.2.2 (by decide)⟩

/-- C3 counterexample: a first response with no tool-call request whose text
is the empty string makes `generate_response` return the literal
`"No response generated"`, not the response's text. -/
theorem c3_counterexample :
    ((generate_response
        (fun _ => CallOutcome.ok { stop_reason := "end_turn", content := [ContentBlock.text ""] })
        "What is 2+2?" none none none).result = "No response generated")
    ∧ ((generate_response
        (fun _ => CallOutcome.ok { stop_reason := "end_turn", content := [ContentBlock.text ""] })
        "What is 2+2?" none none none).result ≠ "") := by
  exact ⟨by decide, by decide⟩

/-- After a tool round, the next model calls see exactly the old messages
plus the assistant tool-call message plus the bundled result message. -/
theorem run_tool_round_msgs (model : Nat → CallOutcome) (sys : String)
    (state : ConvState) (callIdx n : Nat)
    (callsAcc : List ApiCall) (traceAcc : List (List ToolResult))
    (tm : ToolExec) (r : ModelResponse)
    (h : model callIdx = CallOutcome.ok r) (hs : r.stop_reason = "tool_use")
    (htm : state.tool_manager = some tm)
    (hk : (handleToolExecution tm r.content).isEmpty = false) :
    ∃ l, ((runLoop model sys state callIdx (n + 1) callsAcc traceAcc).calls).map ApiCall.messages
      = callsAcc.map ApiCall.messages ++ state.messages
        :: (state.messages
            ++ [{ role := "assistant", content := MessageContent.ofBlocks r.content },
                { role := "user", content := MessageContent.ofResults (handleToolExecution tm r.content) }])
        :: l := by
  rw [runLoop_step_tool model sys state callIdx n callsAcc traceAcc tm r h hs htm hk]
  obtain ⟨l, hl⟩ := runLoop_calls_msgs_head model sys n
    { state with messages := state.messages
        ++ [{ role := "assistant", content := MessageContent.ofBlocks r.content },
            { role := "user", content := MessageContent.ofResults (handleToolExecution tm r.content) }] }
    (callIdx + 1)
    (callsAcc ++ [{ messages := state.messages, system := sys,
                    hasTools := optListTruthy state.tools,
                    hasToolChoice := optListTruthy state.tools }])
    (traceAcc ++ [handleToolExecution tm r.content])
  refine ⟨l, ?_⟩
  rw [hl]
  simp

/-- C4: a round whose model response carries `k ≥ 1` tool-use requests (tool
manager present) produces exactly `k` tool results whose `tool_use_id`s
equal the requests' ids in the same order, and the conversation passed to
the next model call is the previous one extended by the assistant tool-call
message followed by exactly one user message bundling those results. -/
theorem c4_result_alignment
    (model : Nat → CallOutcome) (q : String) (hist : Option String)
    (ts : Option (List String)) (tm : ToolExec) (r0 : ModelResponse)
    (h0 : model 0 = CallOutcome.ok r0) (hs0 : r0.stop_reason = "tool_use")
    (hk : toolUseReqs r0.content ≠ []) :
    (handleToolExecution tm r0.content).map ToolResult.tool_use_id
        = (toolUseReqs r0.content).map ToolUseReq.id
    ∧ (handleToolExecution tm r0.content).length = (toolUseReqs r0.content).length
    ∧ (∃ l, ((generate_response model q hist ts (some tm)).calls).map ApiCall.messages
        = [[{ role := "user", content := MessageContent.ofString q }],
           [{ role := "user", content := MessageContent.ofString q },
            { role := "assistant", content := MessageContent.ofBlocks r0.content },
            { role := "user",
              content := MessageContent.ofResults (handleToolExecution tm r0.content) }]] ++ l) := by
  have hlen := handleToolExecution_length tm r0.content
  have hne : handleToolExecution tm r0.content ≠ [] := by
    intro h
    rw [h] at hlen
    exact hk (List.length_eq_zero.mp hlen.symm)
  have hemp : (handleToolExecution tm r0.content).isEmpty = false := by
    cases hE : handleToolExecution tm r0.content with
    | nil => exact absurd hE hne
    | cons x xs => rfl
  refine ⟨handleToolExecution_ids tm r0.content, hlen, ?_⟩
  obtain ⟨l, hl⟩ := run_tool_round_msgs model (systemContent hist)
    (initialState q ts (some tm)) 0 1 [] [] tm r0 h0 hs0 rfl hemp
  refine ⟨l, ?_⟩
  show ((runLoop model (systemContent hist) (initialState q ts (some tm)) 0
      (initialState q ts (some tm)).max_rounds [] []).calls).map ApiCall.messages = _
  rw [show (initialState q ts (some tm)).max_rounds = 1 + 1 from rfl, hl]
  simp [initialState]

/-- Witness for C4 on a single-request tool round. -/
theorem c4_result_alignment_witness :
    ((handleToolExecution exOkTm exToolResp.content).map ToolResult.tool_use_id
        = ["tool_123"])
    ∧ (handleToolExecution exOkTm exToolResp.content).length = 1
    ∧ (∃ l, ((generate_response exToolScript "q" none none (some exOkTm)).calls).map ApiCall.messages
        = [[{ role := "user", content := MessageContent.ofString "q" }],
           [{ role := "user", content := MessageContent.ofString "q" },
            { role := "assistant", content := MessageContent.ofBlocks exToolResp.content },
            { role := "user",
              content := MessageContent.ofResults (handleToolExecution exOkTm exToolResp.content) }]] ++ l) := by
  have h := c4_result_alignment exToolScript "q" none none exOkTm exToolResp rfl rfl (by decide)
  exact ⟨(by decide : (handleToolExecution exOkTm exToolResp.content).map ToolResult.tool_use_id = ["tool_123"]),
    h.2.1.trans (by decide), h.2.2⟩

theorem runLoop_trace_extends (model : Nat → CallOutcome) (sys : String) :
    ∀ (n : Nat) (state : ConvState) (callIdx : Nat)
      (callsAcc : List ApiCall) (traceAcc : List (List ToolResult)),
      ∃ l, (runLoop model sys state callIdx n callsAcc traceAcc).toolRounds = traceAcc ++ l := by
  intro n
  induction n with
  | zero =>
      intro state callIdx callsAcc traceAcc
      exact ⟨[], by simp [runLoop, getFinalResponse]⟩
  | succ n ih =>
      intro state callIdx callsAcc traceAcc
      simp only [runLoop]
      split
      · exact ⟨_, rfl⟩
      · obtain ⟨l, hl⟩ := ih (prepareNextRound state (executeSingleRound model sys state callIdx).1)
          (callIdx + 1) (callsAcc ++ [(executeSingleRound model sys state callIdx).2])
          (traceAcc ++ if (executeSingleRound model sys state callIdx).1.has_tool_calls
            then [(executeSingleRound model sys state callIdx).1.tool_results] else [])
        exact ⟨_, by rw [hl, List.append_assoc]⟩

/-- C5: a tool call whose execution raises is caught per call and replaced
by a result with content `"Tool execution failed: <message>"`; the sibling
tool calls before and after it in the same round are still executed
normally, one result per request, and the round is not aborted: the loop
records the round's results and proceeds to the next model call. -/
theorem c5_tool_error_isolation
    (tm : ToolExec) (pre post : List ContentBlock)
    (id name : String) (input : List (String × String)) (e : String)
    (he : tm name input = Except.error e) :
    (handleToolExecution tm (pre ++ ContentBlock.toolUse id name input :: post)
      = handleToolExecution tm pre
        ++ { tool_use_id := id, content := "Tool execution failed: " ++ e }
          :: handleToolExecution tm post)
    ∧ ((handleToolExecution tm (pre ++ ContentBlock.toolUse id name input :: post)).length
      = (toolUseReqs (pre ++ ContentBlock.toolUse id name input :: post)).length)
    ∧ ∀ (model : Nat → CallOutcome) (q : String) (hist : Option String)
        (ts : Option (List String)) (r0 : ModelResponse),
        model 0 = CallOutcome.ok r0 → r0.stop_reason = "tool_use" →
        r0.content = pre ++ ContentBlock.toolUse id name input :: post →
        2 ≤ (generate_response model q hist ts (some tm)).calls.length
        ∧ (generate_response model q hist ts (some tm)).toolRounds.head?
            = some (handleToolExecution tm r0.content) := by
  have hsplit : handleToolExecution tm (pre ++ ContentBlock.toolUse id name input :: post)
      = handleToolExecution tm pre
        ++ { tool_use_id := id, content := "Tool execution failed: " ++ e }
          :: handleToolExecution tm post := by
    rw [handleToolExecution_append]
    simp [handleToolExecution, he]
  refine ⟨hsplit, handleToolExecution_length tm _, ?_⟩
  intro model q hist ts r0 h0 hs0 hc
  have hemp : (handleToolExecution tm r0.content).isEmpty = false := by
    rw [hc, hsplit]
    cases handleToolExecution tm pre <;> rfl
  have hstep := runLoop_step_tool model (systemContent hist)
    (initialState q ts (some tm)) 0 1 [] [] tm r0 h0 hs0 rfl hemp
  constructor
  · show 2 ≤ (runLoop model (systemContent hist) (initialState q ts (some tm)) 0
      (initialState q ts (some tm)).max_rounds [] []).calls.length
    rw [show (initialState q ts (some tm)).max_rounds = 1 + 1 from rfl, hstep]
    refine le_trans ?_ (runLoop_calls_ge model (systemContent hist) 1 _ _ _ _)
    simp
  · show (runLoop model (systemContent hist) (initialState q ts (some tm)) 0
      (initialState q ts (some tm)).max_rounds [] []).toolRounds.head? = _
    rw [show (initialState q ts (some tm)).max_rounds = 1 + 1 from rfl, hstep]
    obtain ⟨l, hl⟩ := runLoop_trace_extends model (systemContent hist) 1 _ 1 _
      ([] ++ [handleToolExecution tm r0.content])
    rw [hl]
    simp

/-- Fixture: a tool executor that always raises. -/
def exFailTm : ToolExec := fun _ _ => Except.error "ChromaDB connection error"

/-- Fixture: a response requesting two tool calls. -/
def exTwoToolResp : ModelResponse :=
  { stop_reason := "tool_use",
    content := [ContentBlock.toolUse "tool_123" "search_course_content" [("query", "first query")],
                ContentBlock.toolUse "tool_456" "search_course_content" [("query", "second query")]] }

/-- Witness for C5: the first of two tool calls fails, the second is still
executed and the loop proceeds to a second model call. -/
theorem c5_tool_error_isolation_witness :
    (handleToolExecution exFailTm exTwoToolResp.content
      = [{ tool_use_id := "tool_123", content := "Tool execution failed: ChromaDB connection error" },
         { tool_use_id := "tool_456", content := "Tool execution failed: ChromaDB connection error" }])
    ∧ 2 ≤ (generate_response (fun _ => CallOutcome.ok exTwoToolResp) "q" none none (some exFailTm)).calls.length := by
  have h := c5_tool_error_isolation exFailTm []
    [ContentBlock.toolUse "tool_456" "search_course_content" [("query", "second query")]]
    "tool_123" "search_course_content" [("query", "first query")]
    "ChromaDB connection error" rfl
  have hloop := (h.2.2 (fun _ => CallOutcome.ok exTwoToolResp) "q" none none exTwoToolResp rfl rfl rfl).1
  exact ⟨h.1.trans (by decide), hloop⟩

theorem runLoop_step_stop (model : Nat → CallOutcome) (sys : String)
    (state : ConvState) (callIdx n : Nat)
    (callsAcc : List ApiCall) (traceAcc : List (List ToolResult))
    (h : shouldTerminate (executeSingleRound model sys state callIdx).1 = true) :
    runLoop model sys state callIdx (n + 1) callsAcc traceAcc
      = { result := resolveTermination (executeSingleRound model sys state callIdx).1,
          calls := callsAcc ++ [(executeSingleRound model sys state callIdx).2],
          toolRounds := traceAcc
            ++ (if (executeSingleRound model sys state callIdx).1.has_tool_calls
                then [(executeSingleRound model sys state callIdx).1.tool_results] else []) } := by
  simp only [runLoop]
  rw [if_pos h]

/-- C9 (amended): with `tool_manager = None` (its default) exactly one model
call is made and no tool is ever executed, whatever the first response is —
in particular a `stop_reason = "tool_use"` response is treated as natural
completion.  The returned string is the text of the response's first content
block when that text is non-empty (an empty text yields
`"No response generated"`, see the counterexample), and the string
`"Error: <message>"` when reading that text raises (first block not a text
block). -/
theorem c9_no_tool_manager
    (model : Nat → CallOutcome) (q : String) (hist : Option String)
    (ts : Option (List String)) :
    (generate_response model q hist ts none).calls.length = 1
    ∧ (generate_response model q hist ts none).toolRounds = []
    ∧ (∀ s t rest,
        model 0 = CallOutcome.ok { stop_reason := s, content := ContentBlock.text t :: rest } →
        t ≠ "" → (generate_response model q hist ts none).result = t)
    ∧ (∀ s id name input rest,
        model 0 = CallOutcome.ok { stop_reason := s, content := ContentBlock.toolUse id name input :: rest } →
        (generate_response model q hist ts none).result = "Error: " ++ attrErrMsg) := by
  have hterm : shouldTerminate (executeSingleRound model (systemContent hist)
      (initialState q ts none) 0).1 = true := by
    unfold executeSingleRound
    cases model 0 with
    | raise m => simp [shouldTerminate, initialState]
    | ok resp =>
        cases hf : firstText resp.content <;>
          simp [initialState, naturalRound, shouldTerminate, hf]
  have hnotool : (executeSingleRound model (systemContent hist)
      (initialState q ts none) 0).1.has_tool_calls = false := by
    unfold executeSingleRound
    cases model 0 with
    | raise m => simp [initialState]
    | ok resp =>
        cases hf : firstText resp.content <;>
          simp [initialState, naturalRound, hf]
  have hstep := runLoop_step_stop model (systemContent hist)
    (initialState q ts none) 0 1 [] [] hterm
  refine ⟨?_, ?_, ?_, ?_⟩
  · show (runLoop model (systemContent hist) (initialState q ts none) 0
      (initialState q ts none).max_rounds [] []).calls.length = 1
    rw [show (initialState q ts none).max_rounds = 1 + 1 from rfl, hstep]
    simp
  · show (runLoop model (systemContent hist) (initialState q ts none) 0
      (initialState q ts none).max_rounds [] []).toolRounds = []
    rw [show (initialState q ts none).max_rounds = 1 + 1 from rfl, hstep]
    simp [hnotool]
  · intro s t rest h0 ht
    simp [generate_response, initialState, runLoop, executeSingleRound, h0,
      naturalRound, firstText, shouldTerminate, optStrTruthy, resolveTermination, ht]
  · intro s id name input rest h0
    simp [generate_response, initialState, runLoop, executeSingleRound, h0,
      naturalRound, firstText, shouldTerminate, optStrTruthy, resolveTermination,
      attrErrMsg]

/-- Witness for C9 (amended): a tool-requesting first response under a
`None` tool manager — one model call, no tool execution, and the result is
the `"Error: <attribute error>"` string from reading `.text` off the
tool-use block. -/
theorem c9_no_tool_manager_witness :
    (generate_response (fun _ => CallOutcome.ok exToolResp) "q" none none none).calls.length = 1
    ∧ (generate_response (fun _ => CallOutcome.ok exToolResp) "q" none none none).toolRounds = []
    ∧ (generate_response (fun _ => CallOutcome.ok exToolResp) "q" none none none).result
        = "Error: " ++ attrErrMsg := by
  have h := c9_no_tool_manager (fun _ => CallOutcome.ok exToolResp) "q" none none
  exact ⟨h.1, h.2.1,
    h.2.2.2 "tool_use" "tool_123" "search_course_content" [("query", "machine learning")] [] rfl⟩

/-- C9 counterexample: under a `None` tool manager, a first response whose
first block is a text block with empty text makes the loop return
`"No response generated"`, not that (empty) text. -/
theorem c9_counterexample :
    ((generate_response
        (fun _ => CallOutcome.ok { stop_reason := "tool_use", content := [ContentBlock.text ""] })
        "q" none none none).result = "No response generated")
    ∧ ((generate_response
        (fun _ => CallOutcome.ok { stop_reason := "tool_use", content := [ContentBlock.text ""] })
        "q" none none none).result ≠ "")
    ∧ ((generate_response
        (fun _ => CallOutcome.ok { stop_reason := "tool_use", content := [ContentBlock.text ""] })
        "q" none none none).calls.length = 1) := by
  exact ⟨by decide, by decide, by decide⟩

/-- C10: a naturally terminating round (no error, no tool calls) whose final
text is absent or empty makes the dispatch return the literal
`"No response generated"`; at run level, a first response with empty text
produces exactly that string. -/
theorem c10_no_response_generated :
    (∀ r : RoundResponse, r.error = none → r.has_tool_calls = false →
      (r.final_text = none ∨ r.final_text = some "") →
      resolveTermination r = "No response generated")
    ∧ ∀ (model : Nat → CallOutcome) (q : String) (hist : Option String)
        (ts : Option (List String)) (tm : Option ToolExec)
        (s : String) (rest : List ContentBlock),
        model 0 = CallOutcome.ok { stop_reason := s, content := ContentBlock.text "" :: rest } →
        s ≠ "tool_use" →
        (generate_response model q hist ts tm).result = "No response generated" := by
  constructor
  · intro r he hh hf
    rcases hf with hf | hf <;> simp [resolveTermination, optStrTruthy, hf, he]
  · intro model q hist ts tm s rest h0 hs
    cases tm with
    | none =>
        simp [generate_response, initialState, runLoop, executeSingleRound, h0,
          naturalRound, firstText, shouldTerminate, optStrTruthy, resolveTermination]
    | some tmf =>
        simp [generate_response, initialState, runLoop, executeSingleRound, h0, hs,
          naturalRound, firstText, shouldTerminate, optStrTruthy, resolveTermination]

/-- Witness for C10 at a concrete round response and a concrete run. -/
theorem c10_no_response_generated_witness :
    resolveTermination
      { claude_response := none, has_tool_calls := false, tool_results := [],
        final_text := some "", error := none } = "No response generated"
    ∧ (generate_response
        (fun _ => CallOutcome.ok { stop_reason := "end_turn", content := [ContentBlock.text ""] })
        "q" none none none).result = "No response generated" := by
  have h := c10_no_response_generated
  exact ⟨h.1 _ rfl rfl (Or.inr rfl),
    h.2 (fun _ => CallOutcome.ok { stop_reason := "end_turn", content := [ContentBlock.text ""] })
      "q" none none none "end_turn" [] rfl (by decide)⟩

/-! ## Spec-modelled retrieval tool and tool registry

`backend/search_tools.py` and `backend/vector_store.py` are not present in
the tree; the definitions below are modelled from the spec (sections 3, 4.1,
4.2 and the section-8 scenarios) and are consistent with the expectations in
`backend/tests/test_course_search_tool.py`. -/

/-- Modelled from the spec: one metadata row of a Search Result Set
(`course_title`, optional `lesson_number`; `chunk_index` is not consulted by
formatting and is omitted). -/
structure RowMeta where
  course_title : String
  lesson_number : Option Nat := none
deriving DecidableEq, Repr

/-- Modelled from the spec: a Search Result Set (three observable states:
error, empty, has-results).  `distances` is not consulted by response
formatting and is omitted. -/
structure SearchResults where
  documents : List String
  metadata : List RowMeta
  error : Option String := none
deriving DecidableEq, Repr

/-- Modelled from the spec: a Source Citation (display text plus optional
url; the tests read these as the `"text"`/`"url"` keys). -/
structure SourceCitation where
  text : String
  url : Option String
deriving DecidableEq, Repr

/-- Modelled from the spec: the `get_lesson_info` collaborator, returning
`(lesson_title?, lesson_url?)`. -/
def LessonLookup : Type := String → Nat → Option String × Option String

/-- Modelled from the spec: the `"[<course_title>]"` or
`"[<course_title> - Lesson <n>]"` header of one formatted block. -/
def blockHeader (m : RowMeta) : String :=
  match m.lesson_number with
  | some n => "[" ++ m.course_title ++ " - Lesson " ++ toString n ++ "]"
  | none => "[" ++ m.course_title ++ "]"

/-- Modelled from the spec: one formatted result block — header, newline,
document text. -/
def formatBlock (m : RowMeta) (doc : String) : String :=
  blockHeader m ++ "\n" ++ doc

/-- Modelled from the spec: the Source Citation of one result row: with a
lesson number, `"Lesson <n>: <title>"` when the lookup yields a title, else
`"Lesson <n>"`, with the lesson url; without one, the course title and no
url. -/
def rowCitation (look : LessonLookup) (m : RowMeta) : SourceCitation :=
  match m.lesson_number with
  | none => { text := m.course_title, url := none }
  | some n =>
      match look m.course_title n with
      | (some title, u) => { text := "Lesson " ++ toString n ++ ": " ++ title, url := u }
      | (none, u) => { text := "Lesson " ++ toString n, url := u }

/-- Modelled from the spec: the filter-context suffix of the empty-result
message — `" in course '<course_name>'"` and/or `" in lesson <n>"`, present
exactly when the corresponding filter argument was supplied. -/
def filterContext (course_name : Option String) (lesson_number : Option Nat) : String :=
  (match course_name with
   | some c => " in course " ++ squo ++ c ++ squo
   | none => "")
  ++ (match lesson_number with
      | some n => " in lesson " ++ toString n
      | none => "")

/-- Modelled from the spec: the citations produced by a search, one per
result row. -/
def searchCitations (look : LessonLookup) (results : SearchResults) : List SourceCitation :=
  (results.documents.zip results.metadata).map (fun p => rowCitation look p.2)

/-- Modelled from the spec: `CourseSearchTool.execute` — the formatted
output string together with the new `last_sources` list.  Error state:
the error string verbatim, no citations.  Empty state:
`"No relevant content found"`, filter context, terminating period (as in the
section-8 scenario), no citations.  Results: blocks joined by blank lines,
one citation per row. -/
def searchExecute (look : LessonLookup) (results : SearchResults)
    (course_name : Option String := none) (lesson_number : Option Nat := none) :
    String × List SourceCitation :=
  match results.error with
  | some e => (e, [])
  | none =>
      if results.documents.isEmpty then
        ("No relevant content found" ++ filterContext course_name lesson_number ++ ".", [])
      else
        (String.intercalate "\n\n"
          ((results.documents.zip results.metadata).map (fun p => formatBlock p.2 p.1)),
         searchCitations look results)

/-- Modelled from the spec: the retrieval tool's `last_sources`
accumulator. -/
structure CourseSearchToolState where
  last_sources : List SourceCitation := []
deriving DecidableEq, Repr

/-- Modelled from the spec: one `CourseSearchTool.execute` as a state
transition on `last_sources`: the new accumulator is the execution's own
citation list — prior contents are replaced, never appended to (spec
section 4.1: citations must reflect only the most recent execution, success
or not). -/
def searchExecuteStep (look : LessonLookup) (_st : CourseSearchToolState)
    (results : SearchResults) (course_name : Option String := none)
    (lesson_number : Option Nat := none) : String × CourseSearchToolState :=
  ((searchExecute look results course_name lesson_number).1,
   { last_sources := (searchExecute look results course_name lesson_number).2 })

/-- Modelled from the spec: a registered tool's executable (keyword
arguments in, result string out). -/
def ToolFn : Type := List (String × String) → String

/-- Modelled from the spec: `ToolManager.execute_tool` — look the name up in
the registry; when absent, return `"Tool '<name>' not found"` as a normal
string (a returned value, not a raised failure). -/
def executeToolByName (tools : List (String × ToolFn)) (name : String)
    (args : List (String × String)) : String :=
  match tools.lookup name with
  | some f => f args
  | none => "Tool " ++ squo ++ name ++ squo ++ " not found"

/-- Modelled from the spec: a registry-backed tool manager as seen by the
loop's `_handle_tool_execution`: `execute_tool` returns normally in the
not-found case. -/
def registryExec (tools : List (String × ToolFn)) : ToolExec :=
  fun name args => Except.ok (executeToolByName tools name args)

/-- C6 (amended): over any Search Result Set, the search tool's output is
the error string verbatim when `error` is set; the string
`"No relevant content found"` followed by the filter context (present
exactly for the filters supplied) and a terminating period when there is no
error and zero rows; and otherwise one `"[<course_title>( - Lesson <n>)]"`
header-plus-document block per row joined by blank lines. -/
theorem c6_search_formatting (look : LessonLookup) (results : SearchResults)
    (cn : Option String) (ln : Option Nat) :
    (∀ e, results.error = some e → (searchExecute look results cn ln).1 = e)
    ∧ (results.error = none → results.documents = [] →
        (searchExecute look results cn ln).1
          = "No relevant content found" ++ filterContext cn ln ++ ".")
    ∧ (results.error = none → results.documents ≠ [] →
        (searchExecute look results cn ln).1
          = String.intercalate "\n\n"
              ((results.documents.zip results.metadata).map (fun p => formatBlock p.2 p.1))) := by
  refine ⟨?_, ?_, ?_⟩
  · intro e he
    simp [searchExecute, he]
  · intro he hd
    simp [searchExecute, he, hd]
  · intro he hd
    cases hD : results.documents with
    | nil => exact absurd hD hd
    | cons d ds => simp [searchExecute, he, hD]

/-- Witness for C6 (amended): the section-8 scenario
`execute("x", course_name="NoSuch", lesson_number=9)` over an empty result
set, and a one-row success. -/
theorem c6_search_formatting_witness :
    ((searchExecute (fun _ _ => (none, none))
        { documents := [], metadata := [], error := none } (some "NoSuch") (some 9)).1
      = "No relevant content found in course " ++ squo ++ "NoSuch" ++ squo ++ " in lesson 9.")
    ∧ ((searchExecute (fun _ _ => (some "Advanced Topics", some "https://example.com/lesson3"))
        { documents := ["Sample content"],
          metadata := [{ course_title := "ML Course", lesson_number := some 3 }],
          error := none } none none).1
      = "[ML Course - Lesson 3]\nSample content") := by
  have h1 := (c6_search_formatting (fun _ _ => (none, none))
    { documents := [], metadata := [], error := none } (some "NoSuch") (some 9)).2.1 rfl rfl
  have h2 := (c6_search_formatting (fun _ _ => (some "Advanced Topics", some "https://example.com/lesson3"))
    { documents := ["Sample content"],
      metadata := [{ course_title := "ML Course", lesson_number := some 3 }],
      error := none } none none).2.2 rfl (by decide)
  exact ⟨h1.trans (by decide), h2.trans (by decide)⟩

/-- C6 counterexample: on the empty filtered search the period goes after
the filter context (`"No relevant content found in course 'NoSuch' in
lesson 9."`), not between the base message and the appended suffixes as the
claim's literal reading (`"No relevant content found."` with suffixes
appended) would give. -/
theorem c6_counterexample :
    ((searchExecute (fun _ _ => (none, none))
        { documents := [], metadata := [], error := none } (some "NoSuch") (some 9)).1
      = "No relevant content found in course " ++ squo ++ "NoSuch" ++ squo ++ " in lesson 9.")
    ∧ ((searchExecute (fun _ _ => (none, none))
        { documents := [], metadata := [], error := none } (some "NoSuch") (some 9)).1
      ≠ "No relevant content found." ++ " in course " ++ squo ++ "NoSuch" ++ squo
          ++ " in lesson 9") := by
  exact ⟨by decide, by decide⟩

/-- C7: an absent tool name makes the registry's `execute_tool` return the
string `"Tool '<name>' not found"` rather than raise, and the orchestration
loop feeds exactly that string back as the tool call's result content and
proceeds to the next model call. -/
theorem c7_unknown_tool
    (tools : List (String × ToolFn)) (name : String) (args : List (String × String))
    (habs : tools.lookup name = none) :
    (executeToolByName tools name args
      = "Tool " ++ squo ++ name ++ squo ++ " not found")
    ∧ ∀ (model : Nat → CallOutcome) (q : String) (hist : Option String)
        (ts : Option (List String)) (id : String) (r0 : ModelResponse),
        model 0 = CallOutcome.ok r0 → r0.stop_reason = "tool_use" →
        r0.content = [ContentBlock.toolUse id name args] →
        (generate_response model q hist ts (some (registryExec tools))).toolRounds.head?
            = some [{ tool_use_id := id,
                      content := "Tool " ++ squo ++ name ++ squo ++ " not found" }]
        ∧ 2 ≤ (generate_response model q hist ts (some (registryExec tools))).calls.length := by
  have hexec : executeToolByName tools name args
      = "Tool " ++ squo ++ name ++ squo ++ " not found" := by
    simp [executeToolByName, habs]
  refine ⟨hexec, ?_⟩
  intro model q hist ts id r0 h0 hs0 hc
  have hres : handleToolExecution (registryExec tools) r0.content
      = [{ tool_use_id := id,
           content := "Tool " ++ squo ++ name ++ squo ++ " not found" }] := by
    rw [hc]
    simp [handleToolExecution, registryExec, hexec]
  have hemp : (handleToolExecution (registryExec tools) r0.content).isEmpty = false := by
    rw [hres]; rfl
  have hstep := runLoop_step_tool model (systemContent hist)
    (initialState q ts (some (registryExec tools))) 0 1 [] []
    (registryExec tools) r0 h0 hs0 rfl hemp
  constructor
  · show (runLoop model (systemContent hist) (initialState q ts (some (registryExec tools))) 0
      (initialState q ts (some (registryExec tools))).max_rounds [] []).toolRounds.head? = _
    rw [show (initialState q ts (some (registryExec tools))).max_rounds = 1 + 1 from rfl, hstep]
    obtain ⟨l, hl⟩ := runLoop_trace_extends model (systemContent hist) 1 _ 1 _
      ([] ++ [handleToolExecution (registryExec tools) r0.content])
    rw [hl]
    simp [hres]
  · show 2 ≤ (runLoop model (systemContent hist) (initialState q ts (some (registryExec tools))) 0
      (initialState q ts (some (registryExec tools))).max_rounds [] []).calls.length
    rw [show (initialState q ts (some (registryExec tools))).max_rounds = 1 + 1 from rfl, hstep]
    refine le_trans ?_ (runLoop_calls_ge model (systemContent hist) 1 _ _ _ _)
    simp

/-- Witness for C7: the model requests tool `"bogus"` against an empty
registry — the result content is `"Tool 'bogus' not found"` and a second
model call follows. -/
theorem c7_unknown_tool_witness :
    (executeToolByName [] "bogus" [] = "Tool " ++ squo ++ "bogus" ++ squo ++ " not found")
    ∧ (generate_response
        (fun _ => CallOutcome.ok
          { stop_reason := "tool_use", content := [ContentBlock.toolUse "tool_9" "bogus" []] })
        "q" none none (some (registryExec []))).toolRounds.head?
        = some [{ tool_use_id := "tool_9",
                  content := "Tool " ++ squo ++ "bogus" ++ squo ++ " not found" }]
    ∧ 2 ≤ (generate_response
        (fun _ => CallOutcome.ok
          { stop_reason := "tool_use", content := [ContentBlock.toolUse "tool_9" "bogus" []] })
        "q" none none (some (registryExec []))).calls.length := by
  have h := c7_unknown_tool [] "bogus" [] rfl
  have h2 := h.2 (fun _ => CallOutcome.ok
      { stop_reason := "tool_use", content := [ContentBlock.toolUse "tool_9" "bogus" []] })
    "q" none none "tool_9"
    { stop_reason := "tool_use", content := [ContentBlock.toolUse "tool_9" "bogus" []] }
    rfl rfl rfl
  exact ⟨h.1, h2.1, h2.2⟩

/-- C8: after every execution of the retrieval tool the `last_sources`
accumulator equals exactly that execution's citations — independent of any
prior contents; two sequential searches leave only the second search's
citations, and an execution ending in error or with zero rows leaves the
accumulator empty. -/
theorem c8_citation_replacement
    (look : LessonLookup) (st st2 : CourseSearchToolState)
    (r1 r2 : SearchResults) (cn1 cn2 : Option String) (ln1 ln2 : Option Nat) :
    ((searchExecuteStep look st r1 cn1 ln1).2.last_sources
        = (searchExecute look r1 cn1 ln1).2)
    ∧ ((searchExecuteStep look st r1 cn1 ln1).2
        = (searchExecuteStep look st2 r1 cn1 ln1).2)
    ∧ ((searchExecuteStep look (searchExecuteStep look st r1 cn1 ln1).2 r2 cn2 ln2).2.last_sources
        = (searchExecute look r2 cn2 ln2).2)
    ∧ (∀ e, r1.error = some e →
        (searchExecuteStep look st r1 cn1 ln1).2.last_sources = [])
    ∧ (r1.error = none → r1.documents = [] →
        (searchExecuteStep look st r1 cn1 ln1).2.last_sources = []) := by
  refine ⟨rfl, rfl, rfl, ?_, ?_⟩
  · intro e he
    simp [searchExecuteStep, searchExecute, he]
  · intro he hd
    simp [searchExecuteStep, searchExecute, he, hd]

/-- Witness for C8: two sequential successful searches with different
results — the accumulator holds exactly the second search's citations. -/
theorem c8_citation_replacement_witness :
    ((searchExecuteStep (fun _ _ => (some "Lesson Title", some "https://example.com/lesson"))
        (searchExecuteStep (fun _ _ => (some "Lesson Title", some "https://example.com/lesson"))
          { last_sources := [] }
          { documents := ["first doc"],
            metadata := [{ course_title := "Course A", lesson_number := some 1 }],
            error := none } none none).2
        { documents := ["second doc"],
          metadata := [{ course_title := "Course B", lesson_number := some 2 }],
          error := none } none none).2.last_sources
      = [{ text := "Lesson 2: Lesson Title", url := some "https://example.com/lesson" }])
    ∧ ((searchExecuteStep (fun _ _ => (some "Lesson Title", some "https://example.com/lesson"))
        { last_sources := [{ text := "stale", url := none }] }
        { documents := [], metadata := [], error := some "Database connection failed" }
        none none).2.last_sources = []) := by
  have h := c8_citation_replacement
    (fun _ _ => (some "Lesson Title", some "https://example.com/lesson"))
    { last_sources := [] } { last_sources := [] }
    { documents := ["first doc"],
      metadata := [{ course_title := "Course A", lesson_number := some 1 }],
      error := none }
    { documents := ["second doc"],
      metadata := [{ course_title := "Course B", lesson_number := some 2 }],
      error := none }
    none none none none
  have h2 := c8_citation_replacement
    (fun _ _ => (some "Lesson Title", some "https://example.com/lesson"))
    { last_sources := [{ text := "stale", url := none }] }
    { last_sources := [] }
    { documents := [], metadata := [], error := some "Database connection failed" }
    { documents := [], metadata := [], error := none }
    none none none none
  exact ⟨h.2.2.1.trans (by decide), h2.2.2.2.1 "Database connection failed" rfl⟩
